import Mathlib

/-
Verification of the parsing and normalization pipeline of claude-code-log
(src/claude_code_log/parser.py and src/claude_code_log/models.py).

The embedding is shallow: JSON values parsed from a transcript line are an
inductive `Json`; pydantic `model_validate` calls become validators
returning `Option`; Python exceptions become `Except String`; the external
collaborators `dateparser.parse` and `datetime.fromisoformat` (library
code, not part of this repository) are passed in as function parameters.
-/

namespace ClaudeCodeLog

/-- A JSON value as produced by `json.loads` on one transcript line.
Numbers are modelled as integers (no claim involves float-valued fields);
object fields are listed in order and assumed unique-keyed, as `json.loads`
produces. -/
inductive Json where
  | null
  | bool (b : Bool)
  | num (n : Int)
  | str (s : String)
  | arr (xs : List Json)
  | obj (fields : List (String × Json))

/-- Dictionary lookup, `d.get(k)` on a parsed JSON object. -/
def jlookup (fs : List (String × Json)) (k : String) : Option Json :=
  match fs with
  | [] => none
  | (k2, v) :: rest => if k2 = k then some v else jlookup rest k

/-- Python `isinstance(x, dict)` on a parsed JSON value. -/
def Json.isObj : Json → Bool
  | Json.obj _ => true
  | _ => false

mutual
/-- Python `str()` of a parsed JSON value (the `repr`-style rendering of
dicts and lists that `str(item_data)` produces in parser.py).  Escaping of
quotes and backslashes inside string payloads is abstracted away; no claim
inspects the characters of this rendering. -/
def pyRepr : Json → String
  | Json.null => "None"
  | Json.bool true => "True"
  | Json.bool false => "False"
  | Json.num n => toString n
  | Json.str s => "\x27" ++ s ++ "\x27"
  | Json.arr xs => "[" ++ pyReprSeq xs ++ "]"
  | Json.obj fs => "\x7b" ++ pyReprFieldsSeq fs ++ "\x7d"

/-- Comma-separated rendering of a JSON array's elements. -/
def pyReprSeq : List Json → String
  | [] => ""
  | [x] => pyRepr x
  | x :: y :: xs => pyRepr x ++ ", " ++ pyReprSeq (y :: xs)

/-- Comma-separated rendering of a JSON object's fields. -/
def pyReprFieldsSeq : List (String × Json) → String
  | [] => ""
  | [(k, v)] => "\x27" ++ k ++ "\x27: " ++ pyRepr v
  | (k, v) :: y :: xs => "\x27" ++ k ++ "\x27: " ++ pyRepr v ++ ", " ++ pyReprFieldsSeq (y :: xs)
end

/-- Does `s` contain `pat` as a contiguous sublist?  Backs the Python
substring test `pat in s`. -/
def hasSubstrList (pat : List Char) : List Char → Bool
  | [] => pat.isEmpty
  | c :: tl => pat.isPrefixOf (c :: tl) || hasSubstrList pat tl

/-- Python substring containment `pat in s` on strings. -/
def strContains (s pat : String) : Bool := hasSubstrList pat.data s.data

/-- Code-point lexicographic `≤` on character lists: exactly Python's
string comparison used by `list.sort(key=...)`. -/
def charListLe : List Char → List Char → Bool
  | [], _ => true
  | _ :: _, [] => false
  | a :: as, b :: bs =>
    if a.toNat < b.toNat then true
    else if a.toNat = b.toNat then charListLe as bs
    else false

theorem charListLe_trans (a : List Char) : ∀ b c, charListLe a b = true →
    charListLe b c = true → charListLe a c = true := by
  induction a with
  | nil => intro b c _ _; rfl
  | cons x xs ih =>
    intro b c hab hbc
    cases b with
    | nil => simp [charListLe] at hab
    | cons y ys =>
      cases c with
      | nil => simp [charListLe] at hbc
      | cons z zs =>
        simp only [charListLe] at hab hbc ⊢
        split_ifs at hab hbc ⊢ with h1 h2 h3 h4 h5 h6 <;>
          first
          | rfl
          | omega
          | exact ih ys zs hab hbc

theorem charListLe_total (a : List Char) : ∀ b,
    (charListLe a b || charListLe b a) = true := by
  induction a with
  | nil => intro b; simp [charListLe]
  | cons x xs ih =>
    intro b
    cases b with
    | nil => simp [charListLe]
    | cons y ys =>
      simp only [charListLe, Bool.or_eq_true]
      rcases Nat.lt_trichotomy x.toNat y.toNat with h | h | h
      · left; rw [if_pos h]
      · rcases Bool.or_eq_true _ _ |>.mp (ih ys) with hr | hr
        · left; rw [if_neg (by omega), if_pos h]; exact hr
        · right; rw [if_neg (by omega), if_pos h.symm]; exact hr
      · right; rw [if_pos h]

theorem charListLe_nil_right {a : List Char} (h : charListLe a [] = true) :
    a = [] := by
  cases a with
  | nil => rfl
  | cons x xs => simp [charListLe] at h

theorem string_of_data_nil {s : String} (h : s.data = []) : s = "" := by
  cases s
  simp_all

/-! Data model (src/claude_code_log/models.py).

The official Anthropic content-block classes (TextBlock, ToolUseBlock,
ThinkingBlock) validate the same payload fields as the internal classes
they stand in front of, so each dispatch branch of `parse_content_item`
is modelled by the composite validator of its strict-then-permissive
attempt pair; the payload they produce is identical either way. -/

/-- Payload of the `content` field of a ToolResultContent: a plain string
or a list of JSON mappings (models.py: `Union[str, List[Dict[str, Any]]]`). -/
inductive ToolResultPayload where
  | str (s : String)
  | items (items : List Json)

/-- A parsed content block (the `ContentItem` union of models.py, with the
official Anthropic block classes collapsed onto the equal-payload internal
variants). -/
inductive ContentItem where
  | text (text : String)
  | toolUse (id name : String) (input : Json)
  | toolResult (tool_use_id : String) (content : ToolResultPayload) (is_error : Option Bool)
  | thinking (thinking : String) (signature : Option String)
  | image (media_type data : String)

/-- UsageInfo (models.py:22): all-optional token counters. -/
structure UsageInfo where
  input_tokens : Option Int
  cache_creation_input_tokens : Option Int
  cache_read_input_tokens : Option Int
  output_tokens : Option Int
  service_tier : Option String
  server_tool_use : Option Json

/-- The `server_tool_use` sub-object of the Anthropic SDK Usage class. -/
structure ServerToolUsage where
  web_search_requests : Int

/-- The Anthropic SDK `Usage` class: `input_tokens`/`output_tokens`
required, the rest optional. -/
structure AnthropicUsage where
  input_tokens : Int
  output_tokens : Int
  cache_creation_input_tokens : Option Int
  cache_read_input_tokens : Option Int
  server_tool_use : Option ServerToolUsage
  service_tier : Option String

/-- `ServerToolUsage.model_dump()`: back to a plain mapping. -/
def ServerToolUsage.model_dump (s : ServerToolUsage) : Json :=
  Json.obj [("web_search_requests", Json.num s.web_search_requests)]

/-- `UsageInfo.from_anthropic_usage` (models.py:45). -/
def UsageInfo.from_anthropic_usage (u : AnthropicUsage) : UsageInfo :=
  { input_tokens := some u.input_tokens
    output_tokens := some u.output_tokens
    cache_creation_input_tokens := u.cache_creation_input_tokens
    cache_read_input_tokens := u.cache_read_input_tokens
    service_tier := u.service_tier
    server_tool_use := u.server_tool_use.map ServerToolUsage.model_dump }

/-- TodoItem (models.py:15); the status/priority enums are enforced by the
validator. -/
structure TodoItem where
  id : String
  content : String
  status : String
  priority : String

/-- FileInfo (models.py:146). -/
structure FileInfo where
  filePath : String
  content : String
  numLines : Int
  startLine : Int
  totalLines : Int

/-- CommandResult (models.py:159). -/
structure CommandResult where
  stdout : String
  stderr : String
  interrupted : Bool
  isImage : Bool

/-- EditResult (models.py:171): every field optional. -/
structure EditResult where
  oldString : Option String
  newString : Option String
  replaceAll : Option Bool
  originalFile : Option String
  structuredPatch : Option Json
  userModified : Option Bool

/-- The ToolUseResult union (models.py:180), matched by shape. -/
inductive ToolUseResult where
  | str (s : String)
  | todoList (items : List TodoItem)
  | fileRead (type_ : String) (file : FileInfo)
  | command (r : CommandResult)
  | todoResult (oldTodos newTodos : List TodoItem)
  | editResult (r : EditResult)
  | contentList (items : List ContentItem)

/-- A user message's content after parsing: a verbatim string or a list of
content blocks (models.py:107). -/
inductive MessageContent where
  | str (s : String)
  | items (items : List ContentItem)

/-- AssistantMessage (models.py:112); the `type`/`role` literals are
enforced by the validator and not stored. -/
structure AssistantMessage where
  id : String
  model : String
  content : List ContentItem
  stop_reason : Option String
  stop_sequence : Option String
  usage : Option UsageInfo

/-- The shared base fields of user/assistant/system entries
(models.py:191). -/
structure BaseFields where
  parentUuid : Option String
  isSidechain : Bool
  userType : String
  cwd : String
  sessionId : String
  version : String
  uuid : String
  timestamp : String
  isMeta : Option Bool

/-- The TranscriptEntry union (models.py:230). -/
inductive TranscriptEntry where
  | user (base : BaseFields) (message : MessageContent) (toolUseResult : Option ToolUseResult)
  | assistant (base : BaseFields) (message : AssistantMessage) (requestId : Option String)
  | summary (summary leafUuid : String) (cwd : Option String)
  | system (base : BaseFields) (content : String) (level : Option String)

/-- `isinstance(message, SummaryTranscriptEntry)` (parser.py:99). -/
def isSummaryEntry : TranscriptEntry → Bool
  | TranscriptEntry.summary _ _ _ => true
  | _ => false

/-- The sort key of `load_directory_transcripts` (parser.py:228): the
`timestamp` field when the entry has one, `""` for summary entries, which
carry no timestamp attribute. -/
def getTimestamp : TranscriptEntry → String
  | TranscriptEntry.user b _ _ => b.timestamp
  | TranscriptEntry.assistant b _ _ => b.timestamp
  | TranscriptEntry.system b _ _ => b.timestamp
  | TranscriptEntry.summary _ _ _ => ""

/-! Field validators.  Pydantic v2 conventions as they apply to values
coming from `json.loads`: extra keys are ignored, an `Optional` field with
no default is required but nullable, an `Optional` field with default
`None` may be absent; `int` fields accept integers and (lax mode) integer
numeral strings; `str`/`bool` fields require the matching JSON type. -/

/-- Value accepted for an `int`-typed field. -/
def asInt : Json → Option Int
  | Json.num n => some n
  | Json.str s => s.toInt?
  | _ => none

/-- Required `str` field. -/
def reqStr (fs : List (String × Json)) (k : String) : Option String :=
  match jlookup fs k with
  | some (Json.str s) => some s
  | _ => none

/-- `Optional[str] = None` field: absent or null is fine. -/
def optStr (fs : List (String × Json)) (k : String) : Option (Option String) :=
  match jlookup fs k with
  | none => some none
  | some Json.null => some none
  | some (Json.str s) => some (some s)
  | _ => none

/-- `Optional[bool] = None` field. -/
def optBool (fs : List (String × Json)) (k : String) : Option (Option Bool) :=
  match jlookup fs k with
  | none => some none
  | some Json.null => some none
  | some (Json.bool b) => some (some b)
  | _ => none

/-- `Optional[int] = None` field. -/
def optInt (fs : List (String × Json)) (k : String) : Option (Option Int) :=
  match jlookup fs k with
  | none => some none
  | some Json.null => some none
  | some j => match asInt j with
    | some n => some (some n)
    | none => none

/-- `Optional[str] = None` field constrained to an enumeration of string
literals. -/
def optStrIn (fs : List (String × Json)) (k : String) (allowed : List String) :
    Option (Option String) :=
  match jlookup fs k with
  | none => some none
  | some Json.null => some none
  | some (Json.str s) => if allowed.contains s then some (some s) else none
  | _ => none

/-- `Optional[Dict[str, Any]] = None` field. -/
def optObj (fs : List (String × Json)) (k : String) : Option (Option Json) :=
  match jlookup fs k with
  | none => some none
  | some Json.null => some none
  | some (Json.obj f2) => some (some (Json.obj f2))
  | _ => none

/-! Content-block validators (the `model_validate` attempts inside
`parse_content_item`, parser.py:278). -/

/-- The `text` branch: TextBlock then TextContent; both require `text` to
be a string and accept nothing else, so the composite is one check. -/
def validateText (fs : List (String × Json)) : Option ContentItem :=
  match jlookup fs "text" with
  | some (Json.str t) => some (ContentItem.text t)
  | _ => none

/-- The `tool_use` branch: the Anthropic ToolUseBlock accepts any value
for `input` (its annotation is `object`), so it subsumes the internal
ToolUseContent fallback. -/
def validateToolUseDispatch (fs : List (String × Json)) : Option ContentItem :=
  match jlookup fs "id", jlookup fs "name", jlookup fs "input" with
  | some (Json.str i), some (Json.str n), some inp => some (ContentItem.toolUse i n inp)
  | _, _, _ => none

/-- The `thinking` branch: ThinkingBlock requires a string `signature`;
on its failure ThinkingContent allows the signature to be absent or null.
A present non-string non-null signature fails both. -/
def validateThinkingDispatch (fs : List (String × Json)) : Option ContentItem :=
  match jlookup fs "thinking" with
  | some (Json.str t) =>
    match jlookup fs "signature" with
    | some (Json.str sg) => some (ContentItem.thinking t (some sg))
    | some Json.null => some (ContentItem.thinking t none)
    | none => some (ContentItem.thinking t none)
    | _ => none
  | _ => none

/-- ToolResultContent validation (models.py:72): `content` is a string or
a list of mappings. -/
def validateToolResultContent (fs : List (String × Json)) : Option ContentItem :=
  match jlookup fs "tool_use_id" with
  | some (Json.str tid) =>
    match (match jlookup fs "content" with
           | some (Json.str s) => some (ToolResultPayload.str s)
           | some (Json.arr xs) =>
             if xs.all Json.isObj then some (ToolResultPayload.items xs) else none
           | _ => none) with
    | some payload =>
      match optBool fs "is_error" with
      | some ie => some (ContentItem.toolResult tid payload ie)
      | none => none
    | none => none
  | _ => none

/-- ImageContent validation (models.py:91): a `source` sub-object with
literal type `base64`. -/
def validateImageContent (fs : List (String × Json)) : Option ContentItem :=
  match jlookup fs "source" with
  | some (Json.obj sf) =>
    match jlookup sf "type", jlookup sf "media_type", jlookup sf "data" with
    | some (Json.str "base64"), some (Json.str m), some (Json.str d) =>
      some (ContentItem.image m d)
    | _, _, _ => none
  | _ => none

/-- The dispatch table of `parse_content_item` without its fallbacks: the
block produced when the branch selected by the `type` field validates,
`none` when the type is missing or unknown or the branch's validation
fails (i.e. exactly when the Python code degrades to a Text block). -/
def contentDispatch (item_data : Json) : Option ContentItem :=
  match item_data with
  | Json.obj fields =>
    match jlookup fields "type" with
    | some (Json.str t) =>
      if t = "text" then validateText fields
      else if t = "tool_use" then validateToolUseDispatch fields
      else if t = "thinking" then validateThinkingDispatch fields
      else if t = "tool_result" then validateToolResultContent fields
      else if t = "image" then validateImageContent fields
      else none
    | _ => none
  | _ => none

/-- `parse_content_item` (parser.py:278).  The `type` field selects a
branch; each branch's failed validation, an unknown or missing type, and a
non-mapping argument (whose `.get` raises, caught by the enclosing
`except`) all degrade to a Text block holding `str(item_data)`. -/
def parse_content_item (item_data : Json) : ContentItem :=
  match item_data with
  | Json.obj fields =>
    match jlookup fields "type" with
    | some (Json.str t) =>
      if t = "text" then
        match validateText fields with
        | some b => b
        | none => ContentItem.text (pyRepr item_data)
      else if t = "tool_use" then
        match validateToolUseDispatch fields with
        | some b => b
        | none => ContentItem.text (pyRepr item_data)
      else if t = "thinking" then
        match validateThinkingDispatch fields with
        | some b => b
        | none => ContentItem.text (pyRepr item_data)
      else if t = "tool_result" then
        match validateToolResultContent fields with
        | some b => b
        | none => ContentItem.text (pyRepr item_data)
      else if t = "image" then
        match validateImageContent fields with
        | some b => b
        | none => ContentItem.text (pyRepr item_data)
      else ContentItem.text (pyRepr item_data)
    | _ => ContentItem.text (pyRepr item_data)
  | _ => ContentItem.text (pyRepr item_data)

/-- `parse_message_content` (parser.py:316): strings pass through, lists
map through `parse_content_item`, anything else is stringified. -/
def parse_message_content (content_data : Json) : MessageContent :=
  match content_data with
  | Json.str s => MessageContent.str s
  | Json.arr xs => MessageContent.items (xs.map parse_content_item)
  | other => MessageContent.str (pyRepr other)

theorem parse_content_item_eq_dispatch (j : Json) :
    parse_content_item j =
      match contentDispatch j with
      | some b => b
      | none => ContentItem.text (pyRepr j) := by
  cases j with
  | obj fields =>
    simp only [parse_content_item, contentDispatch]
    rcases h : jlookup fields "type" with _ | v
    · rfl
    · cases v with
      | str t =>
        dsimp only
        split_ifs with h1 h2 h3 h4 h5 <;> rfl
      | _ => rfl
  | _ => rfl

/-! Usage normalization (parser.py:237). -/

/-- The values `normalize_usage_info` receives in this pipeline: Python
`None` and raw JSON arrive as `raw` (with `raw Json.null` playing `None`),
plus already-constructed UsageInfo and Anthropic SDK Usage instances.
Arbitrary duck-typed attribute objects (the `hasattr` fallback of
parser.py:251-269, reachable only from callers outside this repository)
are not representable here. -/
inductive UsageData where
  | usageInfo (u : UsageInfo)
  | anthropicUsage (u : AnthropicUsage)
  | raw (j : Json)

/-- `UsageInfo.model_validate` on a mapping: every field optional, wrong
types raise (returned as `none` here). -/
def validateUsageInfo (fs : List (String × Json)) : Option UsageInfo :=
  match optInt fs "input_tokens", optInt fs "cache_creation_input_tokens",
        optInt fs "cache_read_input_tokens", optInt fs "output_tokens",
        optStr fs "service_tier", optObj fs "server_tool_use" with
  | some it, some cc, some cr, some ot, some st, some stu =>
    some ⟨it, cc, cr, ot, st, stu⟩
  | _, _, _, _, _, _ => none

/-- `normalize_usage_info` (parser.py:237): `None` maps to `None`, a
UsageInfo instance is returned unchanged, an Anthropic Usage instance is
converted, a mapping is validated as UsageInfo (raising a validation
error, modelled as `Except.error`, when a field has the wrong type), and
any other value yields `None`. -/
def normalize_usage_info : UsageData → Except String (Option UsageInfo)
  | UsageData.raw Json.null => Except.ok none
  | UsageData.usageInfo u => Except.ok (some u)
  | UsageData.anthropicUsage u => Except.ok (some (UsageInfo.from_anthropic_usage u))
  | UsageData.raw (Json.obj fs) =>
    match validateUsageInfo fs with
    | some u => Except.ok (some u)
    | none => Except.error "usage validation error"
  | UsageData.raw _ => Except.ok none

/-- Feed an output of `normalize_usage_info` back in as an input:
`none` is Python `None`, `some u` the UsageInfo instance. -/
def reliftUsage : Option UsageInfo → UsageData
  | none => UsageData.raw Json.null
  | some u => UsageData.usageInfo u

/-- True exactly when the call raised. -/
def isErrorResult {α : Type} : Except String α → Bool
  | Except.error _ => true
  | Except.ok _ => false

/-! The ToolUseResult union validators (shape-matched in declaration
order, models.py:180). -/

/-- TodoItem validation with its two literal enums. -/
def validateTodoItem : Json → Option TodoItem
  | Json.obj fs =>
    match reqStr fs "id", reqStr fs "content", reqStr fs "status", reqStr fs "priority" with
    | some i, some c, some st, some pr =>
      if ["pending", "in_progress", "completed"].contains st
          && ["high", "medium", "low"].contains pr then
        some ⟨i, c, st, pr⟩
      else none
    | _, _, _, _ => none
  | _ => none

/-- FileReadResult validation (literal `type: "text"` plus a FileInfo). -/
def validateFileReadResult (fs : List (String × Json)) : Option ToolUseResult :=
  match jlookup fs "type", jlookup fs "file" with
  | some (Json.str "text"), some (Json.obj ff) =>
    match reqStr ff "filePath", reqStr ff "content",
          (jlookup ff "numLines").bind asInt, (jlookup ff "startLine").bind asInt,
          (jlookup ff "totalLines").bind asInt with
    | some fp, some c, some nl, some sl, some tl =>
      some (ToolUseResult.fileRead "text" ⟨fp, c, nl, sl, tl⟩)
    | _, _, _, _, _ => none
  | _, _ => none

/-- CommandResult validation. -/
def validateCommandResult (fs : List (String × Json)) : Option ToolUseResult :=
  match reqStr fs "stdout", reqStr fs "stderr",
        jlookup fs "interrupted", jlookup fs "isImage" with
  | some o, some e, some (Json.bool i), some (Json.bool im) =>
    some (ToolUseResult.command ⟨o, e, i, im⟩)
  | _, _, _, _ => none

/-- TodoResult validation: two required lists of todo items. -/
def validateTodoResult (fs : List (String × Json)) : Option ToolUseResult :=
  match jlookup fs "oldTodos", jlookup fs "newTodos" with
  | some (Json.arr os), some (Json.arr ns) =>
    match os.mapM validateTodoItem, ns.mapM validateTodoItem with
    | some old, some new => some (ToolUseResult.todoResult old new)
    | _, _ => none
  | _, _ => none

/-- EditResult validation: all fields optional (`structuredPatch` is
`Optional[Any]`, so any present value is kept). -/
def validateEditResult (fs : List (String × Json)) : Option ToolUseResult :=
  match optStr fs "oldString", optStr fs "newString", optBool fs "replaceAll",
        optStr fs "originalFile", optBool fs "userModified" with
  | some os, some ns, some ra, some og, some um =>
    some (ToolUseResult.editResult ⟨os, ns, ra, og,
      jlookup fs "structuredPatch", um⟩)
  | _, _, _, _, _ => none

/-- Strict validation of one raw item against the ContentItem union in
member order (models.py:97).  The trailing Anthropic ContentBlock variants
without an internal counterpart (server tool use, web-search results,
redacted thinking) are abstracted as non-matching; no claim exercises
them. -/
def validateContentItemStrict : Json → Option ContentItem
  | Json.obj fs =>
    match jlookup fs "type" with
    | some (Json.str t) =>
      if t = "text" then validateText fs
      else if t = "tool_use" then
        match jlookup fs "id", jlookup fs "name", jlookup fs "input" with
        | some (Json.str i), some (Json.str n), some (Json.obj inp) =>
          some (ContentItem.toolUse i n (Json.obj inp))
        | _, _, _ => none
      else if t = "tool_result" then validateToolResultContent fs
      else if t = "thinking" then validateThinkingDispatch fs
      else if t = "image" then validateImageContent fs
      else none
    | _ => none
  | _ => none

/-- Shape-match a raw value against the ToolUseResult union, first member
that validates wins. -/
def validateToolUseResultUnion : Json → Option ToolUseResult
  | Json.str s => some (ToolUseResult.str s)
  | Json.arr xs =>
    match xs.mapM validateTodoItem with
    | some todos => some (ToolUseResult.todoList todos)
    | none =>
      match xs.mapM validateContentItemStrict with
      | some items => some (ToolUseResult.contentList items)
      | none => none
  | Json.obj fs =>
    match validateFileReadResult fs with
    | some r => some r
    | none =>
      match validateCommandResult fs with
      | some r => some r
      | none =>
        match validateTodoResult fs with
        | some r => some r
        | none => validateEditResult fs
  | _ => none

/-- The MCP heuristic condition of parser.py:358-362: the raw
`toolUseResult` list is non-empty, its first element is a mapping, and
that mapping carries a `type` key. -/
def headTypedMapping : List Json → Bool
  | Json.obj ffs :: _ => (jlookup ffs "type").isSome
  | _ => false

/-- The `toolUseResult` handling of the user branch (parser.py:352-367
plus the field's validation): absent or null stays absent; a list passing
the MCP heuristic is reinterpreted element-wise via `parse_content_item`,
keeping only the mapping elements; anything else is shape-matched against
the union, a failure failing the entry. -/
def parseToolUseResultField : Option Json → Except String (Option ToolUseResult)
  | none => Except.ok none
  | some Json.null => Except.ok none
  | some (Json.arr xs) =>
    if headTypedMapping xs then
      Except.ok (some (ToolUseResult.contentList
        ((xs.filter Json.isObj).map parse_content_item)))
    else
      match validateToolUseResultUnion (Json.arr xs) with
      | some r => Except.ok (some r)
      | none => Except.error "toolUseResult validation error"
  | some j =>
    match validateToolUseResultUnion j with
    | some r => Except.ok (some r)
    | none => Except.error "toolUseResult validation error"

/-! Entry parsing (parser.py:327). -/

/-- Validation of the required base fields shared by user/assistant/system
entries (models.py:191): `parentUuid` must be present but may be null,
`isMeta` may be absent. -/
def validateBase (fs : List (String × Json)) : Option BaseFields :=
  match (match jlookup fs "parentUuid" with
         | some Json.null => some none
         | some (Json.str s) => some (some s)
         | _ => none),
        jlookup fs "isSidechain", reqStr fs "userType", reqStr fs "cwd",
        reqStr fs "sessionId", reqStr fs "version", reqStr fs "uuid",
        reqStr fs "timestamp", optBool fs "isMeta" with
  | some pu, some (Json.bool sc), some ut, some cw, some sid, some ver,
      some uid, some ts, some im =>
    some ⟨pu, sc, ut, cw, sid, ver, uid, ts, im⟩
  | _, _, _, _, _, _, _, _, _ => none

/-- The `user` branch of `parse_transcript_entry` (parser.py:344):
preprocess `message.content` through `parse_message_content` and
`toolUseResult` through the MCP heuristic, then validate the entry.  A
non-mapping `message` value fails the entry either through validation or
through the raised attribute error, both caught per line by the loader. -/
def parse_user_entry (fs : List (String × Json)) : Except String TranscriptEntry :=
  match jlookup fs "message" with
  | some (Json.obj mf) =>
    match jlookup mf "role" with
    | some (Json.str "user") =>
      match jlookup mf "content" with
      | some c =>
        match validateBase fs with
        | some base =>
          match parseToolUseResultField (jlookup fs "toolUseResult") with
          | Except.ok tur =>
            Except.ok (TranscriptEntry.user base (parse_message_content c) tur)
          | Except.error e => Except.error e
        | none => Except.error "user entry validation error"
      | none => Except.error "user message content required"
    | _ => Except.error "user message role"
  | _ => Except.error "user message invalid"

/-- The stop-reason enumeration of the Anthropic SDK `StopReason` type. -/
def stopReasons : List String :=
  ["end_turn", "max_tokens", "stop_sequence", "tool_use", "pause_turn", "refusal"]

/-- The `assistant` branch of `parse_transcript_entry` (parser.py:370):
the compatibility check against the official Anthropic Message type
(parser.py:376-382) has no observable effect and is omitted; the message
content is preprocessed, `usage` is normalized when present (its
validation error propagating), then the entry is validated.  A message
whose content is not a list fails validation. -/
def parse_assistant_entry (fs : List (String × Json)) : Except String TranscriptEntry :=
  match jlookup fs "message" with
  | some (Json.obj mf) =>
    match jlookup mf "content" with
    | some c =>
      match (match jlookup mf "usage" with
             | none => Except.ok (none : Option UsageInfo)
             | some uj => normalize_usage_info (UsageData.raw uj)) with
      | Except.error e => Except.error e
      | Except.ok usage =>
        match validateBase fs, reqStr mf "id", jlookup mf "type",
              jlookup mf "role", reqStr mf "model" with
        | some base, some mid, some (Json.str "message"),
            some (Json.str "assistant"), some mdl =>
          match parse_message_content c with
          | MessageContent.str _ => Except.error "assistant content must be a list"
          | MessageContent.items citems =>
            match optStrIn mf "stop_reason" stopReasons, optStr mf "stop_sequence",
                  optStr fs "requestId" with
            | some sr, some ss, some rid =>
              Except.ok (TranscriptEntry.assistant base
                ⟨mid, mdl, citems, sr, ss, usage⟩ rid)
            | _, _, _ => Except.error "assistant entry validation error"
        | _, _, _, _, _ => Except.error "assistant entry validation error"
    | none => Except.error "assistant message content required"
  | _ => Except.error "assistant message invalid"

/-- The `summary` branch: direct structural validation (models.py:215). -/
def parse_summary_entry (fs : List (String × Json)) : Except String TranscriptEntry :=
  match reqStr fs "summary", reqStr fs "leafUuid", optStr fs "cwd" with
  | some s, some l, some c => Except.ok (TranscriptEntry.summary s l c)
  | _, _, _ => Except.error "summary entry validation error"

/-- The `system` branch: direct structural validation (models.py:222). -/
def parse_system_entry (fs : List (String × Json)) : Except String TranscriptEntry :=
  match validateBase fs, reqStr fs "content", optStr fs "level" with
  | some base, some c, some lv => Except.ok (TranscriptEntry.system base c lv)
  | _, _, _ => Except.error "system entry validation error"

/-- `parse_transcript_entry` (parser.py:327): dispatch on the `type`
field; an absent, non-string or unknown type raises `ValueError`
(`Except.error` here), as does any nested validation failure. -/
def parse_transcript_entry (data : Json) : Except String TranscriptEntry :=
  match data with
  | Json.obj fs =>
    match jlookup fs "type" with
    | some (Json.str "user") => parse_user_entry fs
    | some (Json.str "assistant") => parse_assistant_entry fs
    | some (Json.str "summary") => parse_summary_entry fs
    | some (Json.str "system") => parse_system_entry fs
    | _ => Except.error "Unknown transcript entry type"
  | _ => Except.error "not a mapping"

/-! Transcript loading (parser.py:126).  A file that opened successfully
is a list of lines; each line is abstracted by what `line.strip()` and
`json.loads` make of it: blank after stripping, malformed JSON, or a
parsed JSON value.  The cache collaborator (parser.py:134-147, external
to src/) is absent, i.e. `cache_manager=None`, the only path on which
fresh parsing happens; the date parameters are forwarded only to the
cache and so do not appear. -/
inductive RawLine where
  | blank
  | malformed
  | value (j : Json)

/-- The recognized entry types (parser.py:168). -/
def recognizedTypes : List String := ["user", "assistant", "summary", "system"]

/-- `load_transcript` (parser.py:126) on the lines of an opened file:
blank lines are skipped; JSON decode errors, non-object lines,
unrecognized types and entry validation errors are each caught inside the
per-line loop (parser.py:176-199 catches every exception), logged and
skipped; surviving entries accumulate in file order.  Totality of this
function is the per-line isolation property: no line's failure escapes. -/
def load_transcript : List RawLine → List TranscriptEntry
  | [] => []
  | line :: rest =>
    match line with
    | RawLine.blank => load_transcript rest
    | RawLine.malformed => load_transcript rest
    | RawLine.value j =>
      match j with
      | Json.obj fs =>
        match jlookup fs "type" with
        | some (Json.str t) =>
          if recognizedTypes.contains t then
            match parse_transcript_entry (Json.obj fs) with
            | Except.ok e => e :: load_transcript rest
            | Except.error _ => load_transcript rest
          else load_transcript rest
        | _ => load_transcript rest
      | _ => load_transcript rest

/-- Claim-side classification of one line: the entry it contributes, or
`none` when it is skipped (blank, malformed, not an object, type missing
or unrecognized or non-string, or entry validation failed). -/
def lineResult : RawLine → Option TranscriptEntry
  | RawLine.blank => none
  | RawLine.malformed => none
  | RawLine.value j =>
    match j with
    | Json.obj fs =>
      match jlookup fs "type" with
      | some (Json.str t) =>
        if recognizedTypes.contains t then
          (parse_transcript_entry (Json.obj fs)).toOption
        else none
      | _ => none
    | _ => none

/-- The comparator of the chronological sort (parser.py:233): Python
string `<=` on the timestamp keys, i.e. code-point lexicographic order. -/
def tsLe (a b : TranscriptEntry) : Bool :=
  charListLe (getTimestamp a).data (getTimestamp b).data

/-- `load_directory_transcripts` (parser.py:208): load every transcript
file, concatenate, and sort the combined list by timestamp key (Python
`list.sort` is a stable merge sort). -/
def load_directory_transcripts (files : List (List RawLine)) : List TranscriptEntry :=
  ((files.map load_transcript).flatten).mergeSort tsLe

/-! Date filtering (parser.py:61-123).  The external collaborators are
parameters: `dateparse` stands for `dateparser.parse` (the comment at
parser.py:111 records that it returns naive datetimes, so its result is a
bare wall-clock value), `isoParse` for `datetime.fromisoformat` (whose
result may carry a timezone offset). -/

/-- A naive wall-clock datetime; Python datetimes compare these seven
fields lexicographically. -/
structure Wall where
  year : Int
  month : Int
  day : Int
  hour : Int
  minute : Int
  second : Int
  microsecond : Int
deriving DecidableEq

/-- Python `datetime.__lt__` on naive datetimes. -/
def wallLtb (a b : Wall) : Bool :=
  if a.year < b.year then true else if b.year < a.year then false
  else if a.month < b.month then true else if b.month < a.month then false
  else if a.day < b.day then true else if b.day < a.day then false
  else if a.hour < b.hour then true else if b.hour < a.hour then false
  else if a.minute < b.minute then true else if b.minute < a.minute then false
  else if a.second < b.second then true else if b.second < a.second then false
  else if a.microsecond < b.microsecond then true else false

/-- A possibly timezone-aware datetime as `fromisoformat` returns it;
`replace(tzinfo=None)` keeps only `wall`. -/
structure PyDateTime where
  wall : Wall
  tzOffsetMinutes : Option Int

/-- `dt.replace(hour=0, minute=0, second=0, microsecond=0)`
(parser.py:86). -/
def startOfDay (w : Wall) : Wall :=
  { w with hour := 0, minute := 0, second := 0, microsecond := 0 }

/-- `dt.replace(hour=23, minute=59, second=59, microsecond=999999)`
(parser.py:94). -/
def endOfDay (w : Wall) : Wall :=
  { w with hour := 23, minute := 59, second := 59, microsecond := 999999 }

/-- `parse_timestamp` (parser.py:61): `fromisoformat` after rewriting a
trailing `Z` suffix; a parse failure returns `None`. -/
def parse_timestamp (isoParse : String → Option PyDateTime) (timestamp_str : String) :
    Option PyDateTime :=
  isoParse (timestamp_str.replace "Z" "+00:00")

/-- Python falsiness of an optional string (`not from_date`): absent or
empty. -/
def falsyStr (s : String) : Bool := s.data.isEmpty

/-- Falsiness of the optional parameter itself. -/
def falsyOpt : Option String → Bool
  | none => true
  | some s => falsyStr s

/-- Resolution of the from-bound (parser.py:80-86): a falsy parameter
leaves the bound unset; a parse failure raises `ValueError`; a parameter
equal to `today` or `yesterday` or containing `days ago` is widened to the
start of its day. -/
def resolve_from_dt (dateparse : String → Option Wall) :
    Option String → Except String (Option Wall)
  | none => Except.ok none
  | some s =>
    if falsyStr s then Except.ok none
    else match dateparse s with
      | none => Except.error ("Could not parse from-date: " ++ s)
      | some w =>
        Except.ok (some (if s = "today" || s = "yesterday" || strContains s "days ago"
          then startOfDay w else w))

/-- Resolution of the to-bound (parser.py:88-94): as above but widened to
the end of its day. -/
def resolve_to_dt (dateparse : String → Option Wall) :
    Option String → Except String (Option Wall)
  | none => Except.ok none
  | some s =>
    if falsyStr s then Except.ok none
    else match dateparse s with
      | none => Except.error ("Could not parse to-date: " ++ s)
      | some w =>
        Except.ok (some (if s = "today" || s = "yesterday" || strContains s "days ago"
          then endOfDay w else w))

/-- The per-entry loop of `filter_messages_by_date` (parser.py:96-123):
summaries always pass; a falsy or unparseable timestamp skips the entry;
otherwise the timezone-stripped timestamp is compared against whichever
bounds are set. -/
def filterLoop (isoParse : String → Option PyDateTime) (from_dt to_dt : Option Wall) :
    List TranscriptEntry → List TranscriptEntry
  | [] => []
  | m :: rest =>
    if isSummaryEntry m then m :: filterLoop isoParse from_dt to_dt rest
    else if getTimestamp m = "" then filterLoop isoParse from_dt to_dt rest
    else match parse_timestamp isoParse (getTimestamp m) with
      | none => filterLoop isoParse from_dt to_dt rest
      | some dt =>
        if (match from_dt with
            | some f => wallLtb dt.wall f
            | none => false) then filterLoop isoParse from_dt to_dt rest
        else if (match to_dt with
            | some t => wallLtb t dt.wall
            | none => false) then filterLoop isoParse from_dt to_dt rest
        else m :: filterLoop isoParse from_dt to_dt rest

/-- `filter_messages_by_date` (parser.py:69): both parameters falsy
returns the input unchanged; otherwise the bounds are resolved (raising on
an unparseable one) and the loop filters. -/
def filter_messages_by_date (dateparse : String → Option Wall)
    (isoParse : String → Option PyDateTime) (messages : List TranscriptEntry)
    (from_date to_date : Option String) : Except String (List TranscriptEntry) :=
  if falsyOpt from_date && falsyOpt to_date then Except.ok messages
  else
    match resolve_from_dt dateparse from_date with
    | Except.error e => Except.error e
    | Except.ok from_dt =>
      match resolve_to_dt dateparse to_date with
      | Except.error e => Except.error e
      | Except.ok to_dt =>
        Except.ok (filterLoop isoParse from_dt to_dt messages)

/-- Claim-side in-range test: not before the from-bound, not after the
to-bound, unset bounds vacuous. -/
def withinBounds (from_dt to_dt : Option Wall) (w : Wall) : Bool :=
  (match from_dt with
   | some f => !(wallLtb w f)
   | none => true) &&
  (match to_dt with
   | some t => !(wallLtb t w)
   | none => true)

/-- Claim-side retention predicate: a summary is always retained; any
other entry is retained exactly when its own timestamp is non-empty,
parses, and its timezone-stripped value lies within the bounds. -/
def retainedEntry (isoParse : String → Option PyDateTime)
    (from_dt to_dt : Option Wall) (m : TranscriptEntry) : Bool :=
  if isSummaryEntry m then true
  else if getTimestamp m = "" then false
  else match parse_timestamp isoParse (getTimestamp m) with
    | none => false
    | some dt => withinBounds from_dt to_dt dt.wall

/-! The Unicode sanitizer. -/

/-- Does the code point lie in the surrogate range U+D800 - U+DFFF? -/
def isSurrogateCP (c : Nat) : Bool := 0xD800 ≤ c && c ≤ 0xDFFF

/-- Replacement of one invalid code point by U+FFFD. -/
def replaceSurrogateCP (c : Nat) : Nat := if isSurrogateCP c then 0xFFFD else c

/-- Modelled from the spec: `sanitize_unicode_for_utf8` lives in
`claude_code_log/converter.py`, which is not under src/ (only its tests
are); spec section 4.1 defines it.  Python strings may hold lone
surrogates, which the host string type excludes, so text is a sequence of
Unicode code points.  Null and empty input return unchanged; a string
that already encodes cleanly (no lone surrogate — every surrogate code
point in a code-point sequence is lone) is returned unchanged; otherwise
every invalid code point is replaced with U+FFFD. -/
def sanitize_unicode_for_utf8 : Option (List Nat) → Option (List Nat)
  | none => none
  | some cps =>
    if cps.isEmpty then some cps
    else if cps.all (fun c => !(isSurrogateCP c)) then some cps
    else some (cps.map replaceSurrogateCP)

/-! Shared lemmas and concrete fixtures. -/

theorem replaceSurrogateCP_not_surrogate (c : Nat) :
    isSurrogateCP (replaceSurrogateCP c) = false := by
  unfold replaceSurrogateCP
  by_cases h : isSurrogateCP c = true
  · rw [if_pos h]; decide
  · rw [if_neg h]; exact Bool.not_eq_true _ |>.mp h

theorem filterLoop_eq_filter (isoParse : String → Option PyDateTime)
    (from_dt to_dt : Option Wall) (msgs : List TranscriptEntry) :
    filterLoop isoParse from_dt to_dt msgs =
      msgs.filter (retainedEntry isoParse from_dt to_dt) := by
  induction msgs with
  | nil => rfl
  | cons m rest ih =>
    rw [List.filter_cons]
    by_cases hs : isSummaryEntry m = true
    · simp [filterLoop, retainedEntry, hs, ih]
    · by_cases ht : getTimestamp m = ""
      · simp [filterLoop, retainedEntry, hs, ht, ih]
      · rcases hp : parse_timestamp isoParse (getTimestamp m) with _ | dt
        · simp [filterLoop, retainedEntry, hs, ht, hp, ih]
        · have hret : retainedEntry isoParse from_dt to_dt m =
              withinBounds from_dt to_dt dt.wall := by
            simp [retainedEntry, hs, ht, hp]
          rw [hret]
          rcases from_dt with _ | f <;> rcases to_dt with _ | t
          · simp [filterLoop, hs, ht, hp, withinBounds, ih]
          · by_cases h2 : wallLtb t dt.wall = true <;>
              simp [filterLoop, hs, ht, hp, withinBounds, h2, ih]
          · by_cases h1 : wallLtb dt.wall f = true <;>
              simp [filterLoop, hs, ht, hp, withinBounds, h1, ih]
          · by_cases h1 : wallLtb dt.wall f = true <;>
              by_cases h2 : wallLtb t dt.wall = true <;>
              simp [filterLoop, hs, ht, hp, withinBounds, h1, h2, ih]

/-- A resolved from-bound used in concrete runs. -/
def wA : Wall := ⟨2025, 1, 2, 0, 0, 0, 0⟩

/-- A message instant one day before `wA`. -/
def wB : Wall := ⟨2025, 1, 1, 0, 0, 0, 0⟩

/-- A date parser collaborator resolving everything to `wA`. -/
def dpFixA : String → Option Wall := fun _ => some wA

/-- An ISO parser collaborator resolving every timestamp to `wB`, naive. -/
def ipFixB : String → Option PyDateTime := fun _ => some ⟨wB, none⟩

/-- Concrete base fields of a valid entry. -/
def baseFix : BaseFields :=
  ⟨none, false, "external", "/w", "s1", "1.0.0", "u1", "2025-01-01T00:00:00Z", none⟩

/-- A concrete user entry. -/
def userFix : TranscriptEntry :=
  TranscriptEntry.user baseFix (MessageContent.str "hi") none

/-- A concrete summary entry. -/
def summaryFix : TranscriptEntry := TranscriptEntry.summary "sum" "u1" none

/-! Claim theorems. -/

/-- C1: for a file that opened, `load_transcript` never propagates a
per-line failure (its embedding is a total function on the line list), and
a file whose lines split into parsing and skipped lines yields exactly the
parsed entries, in file order: the result is the `filterMap` of the
per-line classification. -/
theorem load_transcript_per_line_isolation (lines : List RawLine) :
    load_transcript lines = lines.filterMap lineResult := by
  induction lines with
  | nil => rfl
  | cons l rest ih =>
    rw [List.filterMap_cons]
    cases l with
    | blank => simpa [load_transcript, lineResult] using ih
    | malformed => simpa [load_transcript, lineResult] using ih
    | value j =>
      cases j with
      | obj fs =>
        rcases h : jlookup fs "type" with _ | v
        · simpa [load_transcript, lineResult, h] using ih
        · cases v with
          | str t =>
            by_cases hrec : t ∈ recognizedTypes
            · rcases hp : parse_transcript_entry (Json.obj fs) with e | e <;>
                simp [load_transcript, lineResult, h, hrec, hp, Except.toOption, ih]
            · simp [load_transcript, lineResult, h, hrec, ih]
          | _ => simpa [load_transcript, lineResult, h] using ih
      | _ => simpa [load_transcript, lineResult] using ih

/-- C2: `parse_content_item` is total (it is a plain function on JSON
values), and whenever the `type` field is missing or unknown or the
selected branch's validation fails — i.e. exactly when `contentDispatch`
yields nothing — the result is a Text block holding the string
representation of the raw input; when dispatch succeeds its block is
returned. -/
theorem parse_content_item_total_fallback (j : Json) :
    (contentDispatch j = none →
       parse_content_item j = ContentItem.text (pyRepr j)) ∧
    (∀ b, contentDispatch j = some b → parse_content_item j = b) := by
  refine ⟨fun h => ?_, fun b h => ?_⟩ <;>
    rw [parse_content_item_eq_dispatch, h]

/-- Witness for C2 at the spec's own example `{"type":"bogus","foo":1}`. -/
theorem parse_content_item_total_fallback_witness :
    contentDispatch (Json.obj [("type", Json.str "bogus"), ("foo", Json.num 1)]) = none ∧
    parse_content_item (Json.obj [("type", Json.str "bogus"), ("foo", Json.num 1)]) =
      ContentItem.text (pyRepr (Json.obj [("type", Json.str "bogus"), ("foo", Json.num 1)])) :=
  ⟨rfl, (parse_content_item_total_fallback _).1 rfl⟩

/-- C8 (spec-modelled, converter.py is not under src/): the Unicode
sanitizer returns null and empty input unchanged and is idempotent. -/
theorem sanitize_unicode_idempotent :
    sanitize_unicode_for_utf8 none = none ∧
    sanitize_unicode_for_utf8 (some []) = some [] ∧
    ∀ x, sanitize_unicode_for_utf8 (sanitize_unicode_for_utf8 x) =
      sanitize_unicode_for_utf8 x := by
  refine ⟨rfl, rfl, fun x => ?_⟩
  cases x with
  | none => rfl
  | some cps =>
    by_cases he : cps.isEmpty = true
    · simp [sanitize_unicode_for_utf8, he]
    · by_cases hall : cps.all (fun c => !(isSurrogateCP c)) = true
      · simp [sanitize_unicode_for_utf8, he, hall]
      · have h1 : (cps.map replaceSurrogateCP).isEmpty = false := by
          cases cps <;> simp_all
        have h2 : (cps.map replaceSurrogateCP).all (fun c => !(isSurrogateCP c)) = true := by
          rw [List.all_map]
          refine List.all_eq_true.mpr fun c _ => ?_
          simp [Function.comp, replaceSurrogateCP_not_surrogate]
        simp [sanitize_unicode_for_utf8, he, hall, h1, h2]

/-- C5: `load_directory_transcripts` returns a permutation of the
concatenated per-file entry lists, sorted ascending by the lexicographic
timestamp-string key; every entry lacking a timestamp field — exactly the
summary entries — has the empty-string key, and empty-key entries sort
first (no entry with a non-empty key precedes one with the empty key). -/
theorem load_directory_transcripts_sorted (files : List (List RawLine)) :
    (load_directory_transcripts files).Perm ((files.map load_transcript).flatten) ∧
    List.Pairwise (fun a b => tsLe a b = true) (load_directory_transcripts files) ∧
    List.Pairwise (fun a b => getTimestamp b = "" → getTimestamp a = "")
      (load_directory_transcripts files) ∧
    (∀ e ∈ load_directory_transcripts files,
       isSummaryEntry e = true → getTimestamp e = "") := by
  have htrans : ∀ a b c : TranscriptEntry,
      tsLe a b = true → tsLe b c = true → tsLe a c = true :=
    fun a b c hab hbc => charListLe_trans _ _ _ hab hbc
  have htotal : ∀ a b : TranscriptEntry, (tsLe a b || tsLe b a) = true :=
    fun a b => charListLe_total _ _
  have hsorted := List.sorted_mergeSort htrans htotal ((files.map load_transcript).flatten)
  refine ⟨List.mergeSort_perm _ _, hsorted, hsorted.imp ?_, fun e _ he => ?_⟩
  · intro a b hab hb
    unfold tsLe at hab
    rw [hb] at hab
    exact string_of_data_nil (charListLe_nil_right hab)
  · cases e <;> simp_all [isSummaryEntry, getTimestamp]

/-- C6: given resolvable bounds, `filter_messages_by_date` returns the
input unchanged when both parameters are falsy; otherwise it keeps exactly
the entries satisfying the retention predicate — every summary entry
passes it unconditionally, and any other entry passes exactly when its own
timestamp is non-empty, parses, and its timezone-stripped value lies
within the resolved bounds. -/
theorem filter_messages_by_date_retention (dateparse : String → Option Wall)
    (isoParse : String → Option PyDateTime) (msgs : List TranscriptEntry)
    (from_date to_date : Option String) (from_dt to_dt : Option Wall)
    (hf : resolve_from_dt dateparse from_date = Except.ok from_dt)
    (ht : resolve_to_dt dateparse to_date = Except.ok to_dt) :
    ((falsyOpt from_date && falsyOpt to_date) = true →
       filter_messages_by_date dateparse isoParse msgs from_date to_date =
         Except.ok msgs) ∧
    ((falsyOpt from_date && falsyOpt to_date) = false →
       filter_messages_by_date dateparse isoParse msgs from_date to_date =
         Except.ok (msgs.filter (retainedEntry isoParse from_dt to_dt))) ∧
    (∀ m, isSummaryEntry m = true → retainedEntry isoParse from_dt to_dt m = true) := by
  refine ⟨fun h => by simp [filter_messages_by_date, h],
          fun h => ?_, fun m hm => by simp [retainedEntry, hm]⟩
  simp [filter_messages_by_date, h, hf, ht, filterLoop_eq_filter]

/-- Witness for C6: a summary entry survives a from-bound that excludes
the only other (older) entry. -/
theorem filter_messages_by_date_retention_witness :
    resolve_from_dt dpFixA (some "2025-01-02") = Except.ok (some wA) ∧
    filter_messages_by_date dpFixA ipFixB [summaryFix, userFix] (some "2025-01-02") none =
      Except.ok ([summaryFix, userFix].filter (retainedEntry ipFixB (some wA) none)) ∧
    [summaryFix, userFix].filter (retainedEntry ipFixB (some wA) none) = [summaryFix] :=
  ⟨rfl,
   (filter_messages_by_date_retention dpFixA ipFixB [summaryFix, userFix]
      (some "2025-01-02") none (some wA) none rfl rfl).2.1 rfl,
   rfl⟩

/-- C9: with both date parameters absent `filter_messages_by_date` is the
identity, and whenever it returns at all, its output is a subsequence of
the input — order preserved, nothing duplicated or synthesized. -/
theorem filter_messages_identity_and_sublist :
    (∀ (dateparse : String → Option Wall) (isoParse : String → Option PyDateTime)
       (msgs : List TranscriptEntry),
       filter_messages_by_date dateparse isoParse msgs none none = Except.ok msgs) ∧
    (∀ (dateparse : String → Option Wall) (isoParse : String → Option PyDateTime)
       (msgs : List TranscriptEntry) (from_date to_date : Option String)
       (out : List TranscriptEntry),
       filter_messages_by_date dateparse isoParse msgs from_date to_date =
         Except.ok out →
       out.Sublist msgs) := by
  refine ⟨fun dateparse isoParse msgs => rfl,
          fun dateparse isoParse msgs from_date to_date out h => ?_⟩
  unfold filter_messages_by_date at h
  by_cases hb : (falsyOpt from_date && falsyOpt to_date) = true
  · rw [if_pos hb] at h
    cases h
    exact List.Sublist.refl _
  · rw [if_neg hb] at h
    rcases hr : resolve_from_dt dateparse from_date with e | from_dt <;> rw [hr] at h
    · cases h
    · rcases hr2 : resolve_to_dt dateparse to_date with e | to_dt <;> rw [hr2] at h
      · cases h
      · dsimp only at h
        rw [filterLoop_eq_filter] at h
        cases h
        exact List.filter_sublist msgs

/-- Witness for C9's subsequence half on a run that filters the sole
entry out. -/
theorem filter_messages_identity_and_sublist_witness :
    filter_messages_by_date dpFixA ipFixB [userFix] (some "2025-01-02") none =
      Except.ok [] ∧
    List.Sublist ([] : List TranscriptEntry) [userFix] :=
  ⟨rfl,
   filter_messages_identity_and_sublist.2 dpFixA ipFixB [userFix]
     (some "2025-01-02") none [] rfl⟩

/-- Counterexample to C3: a mapping whose `input_tokens` field holds a
list fails UsageInfo validation, so `normalize_usage_info` raises a
validation error instead of yielding null usage. -/
theorem normalize_usage_info_raises_on_bad_mapping :
    isErrorResult (normalize_usage_info
      (UsageData.raw (Json.obj [("input_tokens", Json.arr [])]))) = true := rfl

/-- C3 as amended: `normalize_usage_info` returns a UsageInfo or null for
null input, UsageInfo and Anthropic Usage instances, validly-shaped
mappings, and unrecognized non-mapping values; the one way it fails is a
mapping that fails UsageInfo field validation, which raises instead of
yielding null. -/
theorem normalize_usage_info_amended_total (d : UsageData) :
    (∃ r, normalize_usage_info d = Except.ok r) ∨
    (∃ fs, d = UsageData.raw (Json.obj fs) ∧ validateUsageInfo fs = none ∧
       isErrorResult (normalize_usage_info d) = true) := by
  cases d with
  | usageInfo u => exact Or.inl ⟨some u, rfl⟩
  | anthropicUsage u => exact Or.inl ⟨some (UsageInfo.from_anthropic_usage u), rfl⟩
  | raw j =>
    cases j with
    | null => exact Or.inl ⟨none, rfl⟩
    | bool b => exact Or.inl ⟨none, rfl⟩
    | num n => exact Or.inl ⟨none, rfl⟩
    | str s => exact Or.inl ⟨none, rfl⟩
    | arr xs => exact Or.inl ⟨none, rfl⟩
    | obj fs =>
      cases hv : validateUsageInfo fs with
      | some u => exact Or.inl ⟨some u, by simp [normalize_usage_info, hv]⟩
      | none =>
        exact Or.inr ⟨fs, rfl, hv, by simp [normalize_usage_info, hv, isErrorResult]⟩

/-- C10: `normalize_usage_info` maps `None` to `None` and returns any
UsageInfo instance unchanged, so on its own outputs a second application
changes nothing. -/
theorem normalize_usage_info_idempotent :
    normalize_usage_info (UsageData.raw Json.null) = Except.ok none ∧
    (∀ u, normalize_usage_info (UsageData.usageInfo u) = Except.ok (some u)) ∧
    (∀ d r, normalize_usage_info d = Except.ok r →
       normalize_usage_info (reliftUsage r) = Except.ok r) := by
  refine ⟨rfl, fun u => rfl, fun d r h => ?_⟩
  cases d with
  | usageInfo u => cases h; rfl
  | anthropicUsage u => cases h; rfl
  | raw j =>
    cases j with
    | null => cases h; rfl
    | bool b => cases h; rfl
    | num n => cases h; rfl
    | str s => cases h; rfl
    | arr xs => cases h; rfl
    | obj fs =>
      rcases hv : validateUsageInfo fs with _ | u <;>
        simp [normalize_usage_info, hv] at h
      rw [← h]
      rfl

/-- A concrete Anthropic SDK usage value. -/
def au1 : AnthropicUsage := ⟨5, 3, none, none, none, none⟩

/-- Its normalized UsageInfo form. -/
def ui1 : UsageInfo := ⟨some 5, none, none, some 3, none, none⟩

/-- Witness for C10: the output for a converted Anthropic usage is a
fixed point of normalization. -/
theorem normalize_usage_info_idempotent_witness :
    normalize_usage_info (UsageData.anthropicUsage au1) = Except.ok (some ui1) ∧
    normalize_usage_info (reliftUsage (some ui1)) = Except.ok (some ui1) :=
  ⟨rfl,
   normalize_usage_info_idempotent.2.2 (UsageData.anthropicUsage au1) (some ui1) rfl⟩

/-- A date parser recognizing exactly the literal string `days ago`. -/
def dpDaysAgo : String → Option Wall :=
  fun s => if s = "days ago" then some ⟨2025, 10, 10, 12, 30, 0, 0⟩ else none

/-- Counterexample to C7: the filter string `days ago` is none of
`today`, `yesterday`, or `N days ago` for a numeral N, so per the claim
its bound should be the parser's literal instant (12:30), yet the code's
substring test widens it to the start of the day. -/
theorem resolve_widening_substring_counterexample :
    dpDaysAgo "days ago" = some ⟨2025, 10, 10, 12, 30, 0, 0⟩ ∧
    resolve_from_dt dpDaysAgo (some "days ago") =
      Except.ok (some ⟨2025, 10, 10, 0, 0, 0, 0⟩) ∧
    ("days ago" ≠ "today" ∧ "days ago" ≠ "yesterday" ∧
       ¬∃ n : Nat, "days ago" = Nat.repr n ++ " days ago") ∧
    (⟨2025, 10, 10, 0, 0, 0, 0⟩ : Wall) ≠ ⟨2025, 10, 10, 12, 30, 0, 0⟩ := by
  refine ⟨rfl, rfl, ⟨by decide, by decide, ?_⟩, by decide⟩
  rintro ⟨n, h⟩
  have hlen := congrArg String.length h
  rw [String.length_append] at hlen
  have h8 : ("days ago" : String).length = 8 := rfl
  have h9 : (" days ago" : String).length = 9 := rfl
  omega

/-- C7 as amended: a from/to string equal to `today` or `yesterday` or
containing the substring `days ago` is widened to its day's boundaries
(00:00:00.000000 for a from-bound, 23:59:59.999999 for a to-bound); any
other non-empty string uses the parser's literal instant. -/
theorem resolve_widening_amended (dateparse : String → Option Wall) (s : String)
    (w : Wall) (hs : falsyStr s = false) (hw : dateparse s = some w) :
    ((s = "today" ∨ s = "yesterday" ∨ strContains s "days ago" = true) →
       resolve_from_dt dateparse (some s) = Except.ok (some (startOfDay w)) ∧
       resolve_to_dt dateparse (some s) = Except.ok (some (endOfDay w))) ∧
    ((s ≠ "today" ∧ s ≠ "yesterday" ∧ strContains s "days ago" = false) →
       resolve_from_dt dateparse (some s) = Except.ok (some w) ∧
       resolve_to_dt dateparse (some s) = Except.ok (some w)) := by
  constructor
  · intro h
    have hb : (decide (s = "today") || decide (s = "yesterday")
        || strContains s "days ago") = true := by
      rcases h with h | h | h <;> simp [h]
    constructor
    · simp only [resolve_from_dt]
      rw [if_neg (show ¬falsyStr s = true by simp [hs]), hw]
      dsimp only
      rw [if_pos hb]
    · simp only [resolve_to_dt]
      rw [if_neg (show ¬falsyStr s = true by simp [hs]), hw]
      dsimp only
      rw [if_pos hb]
  · rintro ⟨h1, h2, h3⟩
    have hb : ¬(decide (s = "today") || decide (s = "yesterday")
        || strContains s "days ago") = true := by
      simp [h1, h2, h3]
    constructor
    · simp only [resolve_from_dt]
      rw [if_neg (show ¬falsyStr s = true by simp [hs]), hw]
      dsimp only
      rw [if_neg hb]
    · simp only [resolve_to_dt]
      rw [if_neg (show ¬falsyStr s = true by simp [hs]), hw]
      dsimp only
      rw [if_neg hb]

/-- A date parser resolving everything to a mid-morning instant. -/
def dpToday : String → Option Wall := fun _ => some ⟨2025, 10, 12, 9, 15, 0, 0⟩

/-- Witness for the amended C7 at the trigger string `today`. -/
theorem resolve_widening_amended_witness :
    resolve_from_dt dpToday (some "today") =
      Except.ok (some ⟨2025, 10, 12, 0, 0, 0, 0⟩) ∧
    resolve_to_dt dpToday (some "today") =
      Except.ok (some ⟨2025, 10, 12, 23, 59, 59, 999999⟩) :=
  (resolve_widening_amended dpToday "today" ⟨2025, 10, 12, 9, 15, 0, 0⟩ rfl rfl).1
    (Or.inl rfl)

/-- The raw `toolUseResult` list of the C4 fixture: a typed mapping
followed by a bare number. -/
def mcpListFix : List Json := [Json.obj [("type", Json.str "bogus")], Json.num 5]

/-- A complete, valid user entry line whose `toolUseResult` is
`mcpListFix`. -/
def userEntryFieldsFix : List (String × Json) :=
  [("type", Json.str "user"), ("parentUuid", Json.null),
   ("isSidechain", Json.bool false), ("userType", Json.str "external"),
   ("cwd", Json.str "/w"), ("sessionId", Json.str "s1"),
   ("version", Json.str "1.0.0"), ("uuid", Json.str "u1"),
   ("timestamp", Json.str "2025-01-01T00:00:00Z"),
   ("message", Json.obj [("role", Json.str "user"), ("content", Json.str "hi")]),
   ("toolUseResult", Json.arr mcpListFix)]

/-- The number of content blocks a parsed user entry's reinterpreted
`toolUseResult` holds. -/
def userContentBlockCount : Except String TranscriptEntry → Option Nat
  | Except.ok (TranscriptEntry.user _ _ (some (ToolUseResult.contentList l))) =>
    some l.length
  | _ => none

/-- Counterexample to C4: the fixture's raw list has two elements, but the
parsed entry's `toolUseResult` holds one content block — the list
comprehension at parser.py:363-367 keeps only the mapping elements, so
there is not one block per element of the original list. -/
theorem user_tool_result_drops_nonmappings :
    userContentBlockCount (parse_transcript_entry (Json.obj userEntryFieldsFix)) =
      some 1 ∧
    mcpListFix.length = 2 ∧ (1 : Nat) ≠ 2 :=
  ⟨rfl, rfl, by decide⟩

/-- C4 as amended: when a user entry's `toolUseResult` is a list passing
the MCP heuristic (non-empty, first element a mapping with a `type` key)
and the entry parses, the resulting `toolUseResult` is the element-wise
`parse_content_item` image of the mapping elements of the original list —
one content block per mapping element, non-mapping elements dropped. -/
theorem user_tool_result_reinterpretation (fs : List (String × Json))
    (xs : List Json) (e : TranscriptEntry)
    (hty : jlookup fs "type" = some (Json.str "user"))
    (htur : jlookup fs "toolUseResult" = some (Json.arr xs))
    (hhead : headTypedMapping xs = true)
    (hp : parse_transcript_entry (Json.obj fs) = Except.ok e) :
    (∃ base msg, e = TranscriptEntry.user base msg
       (some (ToolUseResult.contentList
         ((xs.filter Json.isObj).map parse_content_item)))) ∧
    ((xs.filter Json.isObj).map parse_content_item).length =
      (xs.filter Json.isObj).length := by
  refine ⟨?_, by simp⟩
  have htv : parseToolUseResultField (jlookup fs "toolUseResult") =
      Except.ok (some (ToolUseResult.contentList
        ((xs.filter Json.isObj).map parse_content_item))) := by
    rw [htur]
    simp [parseToolUseResultField, hhead]
  simp only [parse_transcript_entry, hty] at hp
  simp only [parse_user_entry, htv] at hp
  split at hp
  case _ mf hm =>
    split at hp
    case _ hr =>
      split at hp
      case _ c hc =>
        split at hp
        case _ base hbase =>
          rw [Except.ok.injEq] at hp
          exact ⟨base, parse_message_content c, hp.symm⟩
        case _ hbase => cases hp
      case _ hc => cases hp
    case _ hr => cases hp
  case _ hm => cases hp

/-- The entry the C4 fixture parses to. -/
def userEntryFix : TranscriptEntry :=
  TranscriptEntry.user
    ⟨none, false, "external", "/w", "s1", "1.0.0", "u1", "2025-01-01T00:00:00Z", none⟩
    (MessageContent.str "hi")
    (some (ToolUseResult.contentList
      [ContentItem.text (pyRepr (Json.obj [("type", Json.str "bogus")]))]))

/-- Witness for the amended C4 at the fixture line. -/
theorem user_tool_result_reinterpretation_witness :
    (∃ base msg, userEntryFix = TranscriptEntry.user base msg
       (some (ToolUseResult.contentList
         ((mcpListFix.filter Json.isObj).map parse_content_item)))) ∧
    ((mcpListFix.filter Json.isObj).map parse_content_item).length =
      (mcpListFix.filter Json.isObj).length :=
  user_tool_result_reinterpretation userEntryFieldsFix mcpListFix userEntryFix
    rfl rfl rfl rfl

end ClaudeCodeLog
